import Mathlib

/-
Verification of the ClipForge authentication and secure-resource-access layer.

The definitions below are shallow embeddings of the JavaScript source:
machine time (`Date.now()`) is passed in explicitly as a `Nat` of
milliseconds, network requests are represented by an explicit outcome
parameter, JavaScript `Map`s and storage areas are association lists, and
a JavaScript function that can reject is modelled with `Except` (the
error value carrying the final store state).
-/

namespace ClipForge

/-! ### Association-list maps (model of JS `Map` / object / chrome.storage) -/

/-- Lookup in an association list: first binding for the key wins
(JS `Map.get` / property access). -/
def kvLookup {α : Type} (k : String) : List (String × α) → Option α
  | [] => none
  | p :: rest => if p.1 = k then some p.2 else kvLookup k rest

/-- Delete every binding of a key (JS `Map.delete` / `delete obj[k]`). -/
def kvErase {α : Type} (k : String) (m : List (String × α)) : List (String × α) :=
  m.filter (fun p => decide (p.1 ≠ k))

/-- Overwrite the binding of a key (JS `Map.set` / `obj[k] = v`). -/
def kvInsert {α : Type} (k : String) (v : α) (m : List (String × α)) : List (String × α) :=
  (k, v) :: kvErase k m

/-- Left-biased choice on `Option` (models building a JS object by first
writing one source and then overriding nothing / falling back). -/
def optOr {α : Type} (a b : Option α) : Option α :=
  match a with
  | some v => some v
  | none => b

/-!
### C1: extension credential store (`auth-manager.js`)

`AuthManager.getStoredTokens` reads `{authToken, plexToken, tokenExpiry}`
from `chrome.storage.local`; when the stored expiry is truthy and in the
past it awaits `refreshTokens()` and recurses.  `refreshTokens` reuses the
stored `plexToken` to call `POST /auth/signin`; on any failure it clears
the stored credentials and re-throws.  The storage content is modelled by
`TokenData`, the network outcome of `api.authenticate` by an
`Option String` (the fresh access token, `none` when the call fails), and
`JS` recursion by explicit fuel (two units suffice: after a successful
refresh the stored expiry is in the future, so the recursive call returns
immediately).
-/

/-- Contents of `chrome.storage.local` for the keys
`authToken`, `plexToken`, `tokenExpiry`. -/
structure TokenData where
  authToken : Option String
  plexToken : Option String
  tokenExpiry : Option Nat
deriving DecidableEq

/-- Store contents after `AuthManager.clearTokens()` removed all three keys. -/
def clearedTokens : TokenData := ⟨none, none, none⟩

/-- `7 * 24 * 60 * 60 * 1000` from `AuthManager.saveTokens`. -/
def sevenDaysMs : Nat := 7 * 24 * 60 * 60 * 1000

/-- Outcome of `AuthManager.refreshTokens`: either the new store contents,
or a thrown error together with the (cleared) store contents. -/
inductive RefreshOut where
  | ok (store : TokenData)
  | failed (store : TokenData)
deriving DecidableEq

/-- `AuthManager.refreshTokens`: throws when no `plexToken` is stored or
when `api.authenticate` fails; both throws go through the `catch` block,
which clears the stored tokens and re-throws.  On success it saves
`{authToken := access, plexToken, tokenExpiry := now + 7 days}`. -/
def refreshTokens (store : TokenData) (now : Nat) (authResult : Option String) : RefreshOut :=
  match store.plexToken with
  | none => RefreshOut.failed clearedTokens
  | some pt =>
    match authResult with
    | none => RefreshOut.failed clearedTokens
    | some access => RefreshOut.ok ⟨some access, some pt, some (now + sevenDaysMs)⟩

/-- The guard `data.tokenExpiry && data.tokenExpiry < Date.now()` of
`AuthManager.getStoredTokens` (a stored expiry of `0` is falsy in JS). -/
def tokenExpired (store : TokenData) (now : Nat) : Bool :=
  match store.tokenExpiry with
  | some e => decide (0 < e) && decide (e < now)
  | none => false

/-- `AuthManager.getStoredTokens`, with explicit fuel for the JS recursion.
`Except.ok d` is the returned data (which also equals the final storage
contents); `Except.error s` is a rejected promise with final storage `s`. -/
def getStoredTokens : Nat → TokenData → Nat → Option String → Except TokenData TokenData
  | 0, store, _, _ => Except.error store
  | Nat.succ fuel, store, now, authResult =>
    if tokenExpired store now then
      match refreshTokens store now authResult with
      | RefreshOut.failed s => Except.error s
      | RefreshOut.ok s => getStoredTokens fuel s now authResult
    else Except.ok store

/-!
### C2: extension PIN polling (`AuthManager.pollForToken`)

`pollForToken(pinId, maxAttempts = 60)` starts a `setInterval` with period
2000 ms.  Each tick increments `attempts`; when `attempts > maxAttempts`
the interval is cleared and the promise rejects with
`Error('Authentication timeout')`; otherwise `checkAuthPin` is called and
the promise resolves when the response carries a truthy `auth_token`
(a thrown poll error just continues).  The backend is modelled by a
response stream indexed by the tick number (tick `n` fires at
`2000 * n` ms after the call), and the interval loop by fuelled
recursion over the tick index.
-/

/-- Outcome of one `checkAuthPin` call: a truthy `auth_token`, a response
without one (e.g. the 404 path, which returns `{auth_token: null}`), or a
thrown error (caught: the loop keeps polling). -/
inductive PollResp where
  | token (t : String)
  | noToken
  | err
deriving DecidableEq

/-- Final state of the `pollForToken` promise. -/
inductive PollFinal where
  | resolved (t : String) (attempt : Nat)
  | rejected (msg : String) (attempt : Nat)
  | outOfFuel
deriving DecidableEq

/-- The message of the rejection in `pollForToken`. -/
def authTimeoutMsg : String := "Authentication timeout"

/-- The interval body of `pollForToken`, one call per tick `n`. -/
def pollGo (resp : Nat → PollResp) (maxAttempts : Nat) : Nat → Nat → PollFinal
  | 0, _ => PollFinal.outOfFuel
  | Nat.succ fuel, n =>
    if maxAttempts < n then PollFinal.rejected authTimeoutMsg n
    else
      match resp n with
      | PollResp.token t => PollFinal.resolved t n
      | _ => pollGo resp maxAttempts fuel (n + 1)

/-- `AuthManager.pollForToken` with its default `maxAttempts = 60`
(fuel `61` covers every reachable tick). -/
def pollForToken (resp : Nat → PollResp) : PollFinal :=
  pollGo resp 60 61 1

/-- Number of `checkAuthPin` calls issued, tick by tick (the rejecting
tick does not poll). -/
def pollCallsGo (resp : Nat → PollResp) (maxAttempts : Nat) : Nat → Nat → Nat
  | 0, _ => 0
  | Nat.succ fuel, n =>
    if maxAttempts < n then 0
    else
      match resp n with
      | PollResp.token _ => 1
      | _ => 1 + pollCallsGo resp maxAttempts fuel (n + 1)

/-- Number of `checkAuthPin` calls of `pollForToken`. -/
def pollCallCount (resp : Nat → PollResp) : Nat := pollCallsGo resp 60 61 1

/-- Elapsed milliseconds at interval tick `n` (period 2000 ms). -/
def tickTimeMs (n : Nat) : Nat := 2000 * n

/-- A backend that never authorizes the PIN. -/
def pendingResp : Nat → PollResp := fun _ => PollResp.noToken

/-!
### C3/C4/C8/C10: media token cache and error handling (web app main JS)

`mediaTokenCache` is a `Map` from `` `${resourceType}:${resourceId}` `` to
`{token, expiresAt}`.  `getMediaToken` returns the cached token when
`cached.expiresAt > Date.now()`, otherwise POSTs `/api/v1/auth/media-token`
through `safeFetch`: on `response.ok` it caches the token for 50 minutes
and returns it; on a 401 it redirects to `/login` and returns null; on any
other status or a thrown (network) error it returns null.  The network is
modelled by a `NetOutcome` parameter, and the result records the returned
value, the cache afterwards, and how many network calls were made.
-/

/-- One entry of `mediaTokenCache`. -/
structure TokenEntry where
  token : String
  expiresAt : Nat
deriving DecidableEq

/-- Outcome of the `/api/v1/auth/media-token` request: 2xx with a token
body, a non-2xx status, or a thrown network error. -/
inductive NetOutcome where
  | ok (token : String)
  | httpErr (status : Nat)
  | netErr
deriving DecidableEq

/-- Result of `getMediaToken`: the value returned, the cache afterwards,
the number of network requests issued, and whether the 401 branch
redirected the page to `/login`. -/
structure MTResult where
  result : Option String
  cache : List (String × TokenEntry)
  networkCalls : Nat
  redirectedToLogin : Bool
deriving DecidableEq

/-- `` `${resourceType}:${resourceId}` ``. -/
def mediaCacheKey (resourceType resourceId : String) : String :=
  resourceType ++ ":" ++ resourceId

/-- `50 * 60 * 1000` from `getMediaToken` ("expires in 50 minutes to be safe"). -/
def fiftyMinutesMs : Nat := 50 * 60 * 1000

/-- The fetch branch of `getMediaToken` (cache miss or expired entry). -/
def mtFetch (cache : List (String × TokenEntry)) (key : String) (now : Nat)
    (net : NetOutcome) : MTResult :=
  match net with
  | NetOutcome.ok t => ⟨some t, kvInsert key ⟨t, now + fiftyMinutesMs⟩ cache, 1, false⟩
  | NetOutcome.httpErr s =>
    if s = 401 then ⟨none, cache, 1, true⟩ else ⟨none, cache, 1, false⟩
  | NetOutcome.netErr => ⟨none, cache, 1, false⟩

/-- `getMediaToken(resourceId, resourceType)`. -/
def getMediaToken (cache : List (String × TokenEntry)) (resourceId resourceType : String)
    (now : Nat) (net : NetOutcome) : MTResult :=
  let key := mediaCacheKey resourceType resourceId
  match kvLookup key cache with
  | some e =>
    if now < e.expiresAt then ⟨some e.token, cache, 0, false⟩
    else mtFetch cache key now net
  | none => mtFetch cache key now net

/-- The query parameters appended by `getMediaUrl` (a `URLSearchParams`
with `token` when present and `download=true` when requested). -/
def mediaUrlParams (token : Option String) (forDownload : Bool) : List (String × String) :=
  (match token with
   | some t => [("token", t)]
   | none => []) ++ (if forDownload then [("download", "true")] else [])

/-- `URLSearchParams.toString` on the parameter list (percent-encoding is
not modelled; the parameter values used here never need it). -/
def encodeParams (ps : List (String × String)) : String :=
  String.intercalate "&" (ps.map (fun p => p.1 ++ "=" ++ p.2))

/-- `getMediaUrl(baseUrl, resourceId, resourceType, token, forDownload)`
(the `resourceId`/`resourceType` arguments are unused by the source). -/
def getMediaUrl (baseUrl : String) (token : Option String) (forDownload : Bool) : String :=
  let ps := mediaUrlParams token forDownload
  if ps.isEmpty then baseUrl
  else baseUrl ++ (if baseUrl.contains '?' then "&" else "?") ++ encodeParams ps

/-- Result of `getSecureMediaUrl`: the URL resolved with, the token that
was embedded (if any), the cache afterwards and the network calls made. -/
structure SecureUrlResult where
  url : String
  tokenUsed : Option String
  cache : List (String × TokenEntry)
  networkCalls : Nat
deriving DecidableEq

/-- `getSecureMediaUrl(baseUrl, resourceId, resourceType, forDownload)`:
awaits `getMediaToken` and builds the URL from whatever it returned. -/
def getSecureMediaUrl (cache : List (String × TokenEntry)) (baseUrl rid rtype : String)
    (forDownload : Bool) (now : Nat) (net : NetOutcome) : SecureUrlResult :=
  let mt := getMediaToken cache rid rtype now net
  ⟨getMediaUrl baseUrl mt.result forDownload, mt.result, mt.cache, mt.networkCalls⟩

/-- Boolean guard: the cache holds no unexpired token for `key`
(so `getMediaToken` will issue a network request). -/
def noFreshCached (cache : List (String × TokenEntry)) (key : String) (now : Nat) : Bool :=
  match kvLookup key cache with
  | some e => decide (e.expiresAt ≤ now)
  | none => true

/-- Boolean guard: the media-token request fails with a non-401 status or
a network error. -/
def isNon401Failure (net : NetOutcome) : Bool :=
  match net with
  | NetOutcome.ok _ => false
  | NetOutcome.httpErr s => decide (s ≠ 401)
  | NetOutcome.netErr => true

/-- A video-player error object as tested by `handleMediaError`:
its `code` and whether its message includes `'401'` or `'Unauthorized'`. -/
structure MediaErr where
  code : Nat
  msgHas401 : Bool
deriving DecidableEq

/-- The guard of `handleMediaError`:
`error.code === 4 || error.message?.includes('401') ||
error.message?.includes('Unauthorized')`. -/
def is401Like (e : MediaErr) : Bool := decide (e.code = 4) || e.msgHas401

/-- Alert message of the failed-refresh branch of `handleMediaError`. -/
def sessionExpiredMsg : String := "Session expired. Please refresh the page."

/-- Result of `handleMediaError`: cache afterwards, keys evicted from the
cache, token-endpoint network calls, the tokens the retry callback was
invoked with, the alerts shown, and the returned value. -/
structure HMEResult where
  cache : List (String × TokenEntry)
  evicted : List String
  fetchCalls : Nat
  retriedWith : List String
  alerts : List String
  value : Bool
deriving DecidableEq

/-- `handleMediaError(error, resourceId, resourceType, retryFunction)`:
for a 401-like error it deletes the `(resourceType, resourceId)` cache
entry, awaits a fresh `getMediaToken`, and calls `retryFunction(newToken)`
exactly once when a token was obtained (returning its result); otherwise
it alerts "Session expired" and returns false.  Non-401-like errors fall
through to `return false` untouched.  `retryReturns` is the value the
retry callback would return. -/
def handleMediaError (e : MediaErr) (resourceId resourceType : String)
    (cache : List (String × TokenEntry)) (now : Nat) (net : NetOutcome)
    (retryReturns : Bool) : HMEResult :=
  if is401Like e then
    let key := mediaCacheKey resourceType resourceId
    let cache1 := kvErase key cache
    let mt := getMediaToken cache1 resourceId resourceType now net
    match mt.result with
    | some t => ⟨mt.cache, [key], mt.networkCalls, [t], [], retryReturns⟩
    | none => ⟨mt.cache, [key], mt.networkCalls, [], [sessionExpiredMsg], false⟩
  else ⟨cache, [], 0, [], [], false⟩

/-- `5 * 60 * 1000` from `markClipAsRecentlyCreated`. -/
def fiveMinutesMs : Nat := 5 * 60 * 1000

/-- `markClipAsRecentlyCreated(clipId)`: records
`expiresAt = Date.now() + 5 minutes` in `recentlyCreatedClips`. -/
def markClipAsRecentlyCreated (markers : List (String × Nat)) (clipId : String)
    (now : Nat) : List (String × Nat) :=
  kvInsert clipId (now + fiveMinutesMs) markers

/-- `isClipRecentlyCreated(clipId)`: true while the stored expiry is
truthy and in the future; an expired (truthy) entry is deleted.  Returns
the flag and the marker map afterwards. -/
def isClipRecentlyCreated (markers : List (String × Nat)) (clipId : String)
    (now : Nat) : Bool × List (String × Nat) :=
  match kvLookup clipId markers with
  | some e =>
    if 0 < e then
      if now < e then (true, markers)
      else (false, kvErase clipId markers)
    else (false, markers)
  | none => (false, markers)

/-- Alert of the recently-created branch of the player error handler. -/
def notReadyMsg : String := "Video is still processing. Please try again in a few moments."

/-- Title of the recently-created alert. -/
def notReadyTitle : String := "Video Not Ready"

/-- Alert shown when `handleMediaError` reports the error unhandled. -/
def failedLoadMsg : String := "Failed to load video. Please refresh the page."

/-- Result of one firing of the `player.on('error')` handler installed by
`setupVideoPlayerErrorHandling`. -/
structure PlayerErrResult where
  markers : List (String × Nat)
  cache : List (String × TokenEntry)
  evicted : List String
  fetchCalls : Nat
  retriedWith : List String
  alerts : List (String × String)
deriving DecidableEq

/-- The `player.on('error')` callback of `setupVideoPlayerErrorHandling`:
only `error.code === 4` is handled; a recently-created resource is
reported "not ready" (no eviction, no fetch, no retry); otherwise the
error goes to `handleMediaError`, and if that reports it unhandled the
generic failure alert is shown as well. -/
def onPlayerError (e : MediaErr) (resourceId resourceType : String)
    (markers : List (String × Nat)) (cache : List (String × TokenEntry))
    (now : Nat) (net : NetOutcome) (retryReturns : Bool) : PlayerErrResult :=
  if e.code = 4 then
    let rc := isClipRecentlyCreated markers resourceId now
    if rc.1 then
      ⟨rc.2, cache, [], 0, [], [(notReadyMsg, notReadyTitle)]⟩
    else
      let r := handleMediaError e resourceId resourceType cache now net retryReturns
      ⟨rc.2, r.cache, r.evicted, r.fetchCalls, r.retriedWith,
        r.alerts.map (fun m => (m, "Error"))
          ++ (if r.value then [] else [(failedLoadMsg, "Error")])⟩
  else ⟨markers, cache, [], 0, [], []⟩

/-!
### C5/C6: anti-forgery (CSRF) header handling (web app main JS and the
PIN endpoints of both surfaces)

`safeFetch(url, options)` adds `getCSRFHeaders()` to `options.headers`
when `options.method` is one of POST/PUT/DELETE/PATCH (uppercased);
`getCSRFHeaders` always reads the `csrf_token` cookie afresh, updates the
in-memory mirror `csrfToken`, and returns `{'X-CSRF-Token': value}` — or
no header at all when the cookie is absent.  The cookie jar is modelled by
an `Option String` (the current value of the `csrf_token` cookie) and the
mirror by a second `Option String`.
-/

/-- The request header carrying the anti-forgery token. -/
def csrfHeaderName : String := "X-CSRF-Token"

/-- The cookie the token is read from. -/
def csrfCookieName : String := "csrf_token"

/-- The methods `safeFetch` treats as state-changing. -/
def mutatingMethods : List String := ["POST", "PUT", "DELETE", "PATCH"]

/-- `getCSRFHeaders()`: reads the cookie fresh; returns the headers to
attach and the updated in-memory mirror. -/
def getCSRFHeaders (cookie : Option String) (mirror : Option String) :
    List (String × String) × Option String :=
  match cookie with
  | some v => ([(csrfHeaderName, v)], some v)
  | none => ([], mirror)

/-- `method.toUpperCase()` (character-wise uppercasing; method names are
ASCII). -/
def upperMethod (m : String) : String := String.mk (m.data.map Char.toUpper)

/-- The method test of `safeFetch` (`options.method` absent means GET and
is not state-changing). -/
def isMutating (method : Option String) : Bool :=
  match method with
  | some m => mutatingMethods.contains (upperMethod m)
  | none => false

/-- The headers `safeFetch` sends (CSRF entries override caller entries,
as in `{...options.headers, ...getCSRFHeaders()}`), with the updated
mirror. -/
def safeFetchHeaders (method : Option String) (callerHeaders : List (String × String))
    (cookie : Option String) (mirror : Option String) :
    List (String × String) × Option String :=
  if isMutating method then
    let g := getCSRFHeaders cookie mirror
    (g.1 ++ callerHeaders, g.2)
  else (callerHeaders, mirror)

/-- A literal `fetch` call as issued by the PIN endpoints. -/
structure RequestSpec where
  method : String
  url : String
  headers : List (String × String)
  credentials : Option String
deriving DecidableEq

/-- Web app `createPlexPin()`: plain `fetch`, not `safeFetch`. -/
def createPlexPinRequest : RequestSpec :=
  ⟨"POST", "/api/v1/auth/pin", [("Content-Type", "application/json")], none⟩

/-- Web app `checkPinStatus(pinId)`: plain `fetch` with no options. -/
def checkPinStatusRequest (pinId : String) : RequestSpec :=
  ⟨"GET", "/api/v1/auth/pin/" ++ pinId, [], none⟩

/-- Extension `ClipForgeAPI.createAuthPin()`: direct `fetch` with
`credentials: 'omit'`, bypassing `this.request`. -/
def extCreateAuthPinRequest (baseUrl : String) : RequestSpec :=
  ⟨"POST", baseUrl ++ "/api/v1/auth/pin", [("Content-Type", "application/json")], some "omit"⟩

/-- Extension `ClipForgeAPI.checkAuthPin(pinId)`: direct `fetch` with
`credentials: 'omit'`. -/
def extCheckAuthPinRequest (baseUrl pinId : String) : RequestSpec :=
  ⟨"GET", baseUrl ++ "/api/v1/auth/pin/" ++ pinId, [("Content-Type", "application/json")],
    some "omit"⟩

/-!
### C7: web popup handshake loop (`frontend/static/js/auth.js`)

`plexOAuth` polls every 1000 ms; each tick first checks
`plexOAuthWindow.closed` and, if the popup is gone, clears the interval
and calls `errorCallback('Authentication cancelled')`; otherwise it checks
the PIN status and resolves on `status.authenticated && status.auth_token`.
A separate `setTimeout` fires `'Authentication timeout'` at 5 minutes
(300000 ms) if neither happened.  The user closing the popup at absolute
time `closeAt` ms is modelled by the predicate `closeAt ≤ 1000 * n` at
tick `n`; the status poll at tick `n` is `statuses n` (`some token` when
authenticated).  The 5-minute timer is modelled as tick 300.
-/

/-- Final state of the popup handshake. -/
inductive WebOutcome where
  | success (token : String) (atMs : Nat)
  | cancelled (msg : String) (atMs : Nat)
  | timedOut (msg : String) (atMs : Nat)
  | pending
deriving DecidableEq

/-- The cancellation message passed to `errorCallback`. -/
def cancelledMsg : String := "Authentication cancelled"

/-- The timeout message passed to `errorCallback`. -/
def webTimeoutMsg : String := "Authentication timeout"

/-- The 1000 ms interval body of `plexOAuth`, one call per tick `n`. -/
def webPollGo (closeAt : Nat) (statuses : Nat → Option String) : Nat → Nat → WebOutcome
  | 0, _ => WebOutcome.pending
  | Nat.succ fuel, n =>
    if 300 ≤ n then WebOutcome.timedOut webTimeoutMsg 300000
    else if closeAt ≤ 1000 * n then WebOutcome.cancelled cancelledMsg (1000 * n)
    else
      match statuses n with
      | some t => WebOutcome.success t (1000 * n)
      | none => webPollGo closeAt statuses fuel (n + 1)

/-- The popup polling loop of `plexOAuth` (fuel 300 covers every tick up
to the 5-minute timer). -/
def webPoll (closeAt : Nat) (statuses : Nat → Option String) : WebOutcome :=
  webPollGo closeAt statuses 300 1

/-- A backend whose PIN is never authorized (for the witness). -/
def noPinStatus : Nat → Option String := fun _ => none

/-!
### C9: extension `SecureStorage` (write-through cache over
`chrome.storage.local`)

`SecureStorage` keeps an in-memory `Map` (`this.cache`) in front of the
storage area.  `get(keys)` serves cached keys from memory, reads only the
uncached ones from backing storage and memoizes what it found; `set(data)`
writes backing storage and then the cache; `remove(keys)` and `clear()`
delete from both.  Both maps are modelled as association lists of string
values; `StoreState` is the pair (cache, backing).
-/

/-- A key-value map (JS `Map` / storage area contents). -/
abbrev KV := List (String × String)

/-- The state of `SecureStorage`: in-memory cache and backing storage. -/
structure StoreState where
  cache : KV
  backing : KV
deriving DecidableEq

/-- The value `get` produces for one key: the cached value if present,
otherwise the backing-storage value. -/
def resultFor (s : StoreState) (k : String) : Option String :=
  optOr (kvLookup k s.cache) (kvLookup k s.backing)

namespace SecureStorage

/-- `SecureStorage.get(keys)`: returns the result map, the state
afterwards, and the list of keys that were read from backing storage. -/
def get (s : StoreState) (keys : List String) : KV × StoreState × List String :=
  let uncached := keys.filter (fun k => (kvLookup k s.cache).isNone)
  let stored := uncached.filterMap (fun k => (kvLookup k s.backing).map (fun v => (k, v)))
  let result := keys.filterMap (fun k => (resultFor s k).map (fun v => (k, v)))
  (result, ⟨stored.foldl (fun c p => kvInsert p.1 p.2 c) s.cache, s.backing⟩, uncached)

/-- `SecureStorage.set(data)`: writes backing storage, then the cache. -/
def set (s : StoreState) (data : KV) : StoreState :=
  ⟨data.foldl (fun c p => kvInsert p.1 p.2 c) s.cache,
   data.foldl (fun b p => kvInsert p.1 p.2 b) s.backing⟩

/-- `SecureStorage.remove(keys)`: deletes from backing storage and cache. -/
def remove (s : StoreState) (keys : List String) : StoreState :=
  ⟨keys.foldl (fun c k => kvErase k c) s.cache,
   keys.foldl (fun b k => kvErase k b) s.backing⟩

/-- `SecureStorage.clear()`: clears backing storage and cache. -/
def clear (_s : StoreState) : StoreState := ⟨[], []⟩

end SecureStorage

/-- One public mutator/reader of `SecureStorage`. -/
inductive SOp where
  | set (data : KV)
  | remove (keys : List String)
  | clearAll
  | getKeys (keys : List String)

/-- Effect of one operation on the store state. -/
def applyOp (s : StoreState) : SOp → StoreState
  | SOp.set data => SecureStorage.set s data
  | SOp.remove keys => SecureStorage.remove s keys
  | SOp.clearAll => SecureStorage.clear s
  | SOp.getKeys keys => (SecureStorage.get s keys).2.1

/-- Run a sequence of operations (a fresh `SecureStorage` has an empty
cache over arbitrary pre-existing backing storage). -/
def runOps (ops : List SOp) (s : StoreState) : StoreState :=
  ops.foldl applyOp s

/-- Cache coherence: every cached binding agrees with backing storage. -/
def coherent (s : StoreState) : Prop :=
  ∀ k v, kvLookup k s.cache = some v → kvLookup k s.backing = some v

/-!
### Theorems for C1
-/

/-- Claim C1, counterexample.  The claim states that when the refresh
fails, `get()` clears the stored credentials and returns null (no session)
rather than propagating the failure.  On the concrete expired session
`{authToken := "tok", plexToken := "plex", tokenExpiry := 5}` at time `10`
with a failing refresh call, `getStoredTokens` clears the store but then
rejects (`Except.error`), propagating the refresh failure to the caller
instead of returning a null session. -/
theorem C1_counterexample :
    getStoredTokens 2 ⟨some "tok", some "plex", some 5⟩ 10 none
      = Except.error clearedTokens := by
  rfl

/-- Claim C1, amended.  For every stored session whose expiry is truthy and
in the past and whose provider token is present: if the refresh call
succeeds with a fresh access token, `getStoredTokens` recurses once and
returns a new session whose expiry `now + 7 days` lies strictly in the
future; if the refresh call fails, the store is cleared and the failure is
propagated to the caller (the promise rejects) — it does not return null. -/
theorem C1_get_refresh (store : TokenData) (now e : Nat) (pt access : String)
    (hpt : store.plexToken = some pt) (he : store.tokenExpiry = some e)
    (h0 : 0 < e) (hlt : e < now) :
    getStoredTokens 2 store now (some access)
        = Except.ok ⟨some access, some pt, some (now + sevenDaysMs)⟩
      ∧ now < now + sevenDaysMs
      ∧ getStoredTokens 2 store now none = Except.error clearedTokens := by
  have hexp : tokenExpired store now = true := by
    simp [tokenExpired, he, h0, hlt]
  have hfresh : tokenExpired ⟨some access, some pt, some (now + sevenDaysMs)⟩ now = false := by
    simp [tokenExpired, sevenDaysMs]
  refine ⟨?_, ?_, ?_⟩
  · show getStoredTokens 2 store now (some access) = _
    simp [getStoredTokens, hexp, refreshTokens, hpt, hfresh]
  · simp [sevenDaysMs]
  · simp [getStoredTokens, hexp, refreshTokens, hpt]

/-- Claim C1, witness: the amended theorem applied to the concrete expired
session `{authToken := "a", plexToken := "p", tokenExpiry := 5}` at
time `10`. -/
theorem C1_get_refresh_witness :
    getStoredTokens 2 ⟨some "a", some "p", some 5⟩ 10 (some "n")
        = Except.ok ⟨some "n", some "p", some (10 + sevenDaysMs)⟩
      ∧ 10 < 10 + sevenDaysMs
      ∧ getStoredTokens 2 ⟨some "a", some "p", some 5⟩ 10 none
        = Except.error clearedTokens :=
  C1_get_refresh ⟨some "a", some "p", some 5⟩ 10 5 "p" "n" rfl rfl (by decide) (by decide)

/-!
### Theorems for C2
-/

theorem pollGo_timeout (resp : Nat → PollResp) (maxAttempts : Nat) :
    ∀ fuel n, n + fuel = maxAttempts + 2 → 1 ≤ n → n ≤ maxAttempts + 1 →
      (∀ m, n ≤ m → m ≤ maxAttempts → ∀ t, resp m ≠ PollResp.token t) →
      pollGo resp maxAttempts fuel n = PollFinal.rejected authTimeoutMsg (maxAttempts + 1)
        ∧ pollCallsGo resp maxAttempts fuel n = maxAttempts + 1 - n := by
  intro fuel
  induction fuel with
  | zero => intro n hn _ hle _; omega
  | succ fuel ih =>
    intro n hn h1 hle hnotok
    by_cases htop : maxAttempts < n
    · have hn' : n = maxAttempts + 1 := by omega
      subst hn'
      constructor
      · simp [pollGo, htop]
      · simp [pollCallsGo, htop]
    · have hnle : n ≤ maxAttempts := by omega
      have hstep := ih (n + 1) (by omega) (by omega) (by omega)
        (fun m hm hm' t => hnotok m (by omega) hm' t)
      cases hr : resp n with
      | token t => exact absurd hr (hnotok n (by omega) hnle t)
      | noToken =>
        constructor
        · simp [pollGo, htop, hr, hstep.1]
        · simp [pollCallsGo, htop, hr, hstep.2]; omega
      | err =>
        constructor
        · simp [pollGo, htop, hr, hstep.1]
        · simp [pollCallsGo, htop, hr, hstep.2]; omega

/-- Claim C2, counterexample.  On a handshake that never resolves,
`pollForToken` rejects with the timeout error on tick 61, i.e.
`2000 * 61 = 122000` ms after polling starts — not within the 120-second
overall timeout stated by the claim. -/
theorem C2_counterexample :
    pollForToken pendingResp = PollFinal.rejected authTimeoutMsg 61
      ∧ tickTimeMs 61 = 122000 ∧ ¬ tickTimeMs 61 ≤ 120000 := by
  refine ⟨?_, rfl, by decide⟩
  rfl

/-- Claim C2, amended.  For every PIN handshake that never resolves (no
tick among 1..60 yields a truthy `auth_token`), `pollForToken` issues
exactly 60 status polls at a fixed 2000 ms interval and rejects with the
`Authentication timeout` error on tick 61 — an overall timeout of
`122000` ms (122 s, one interval after the 60th poll), not 120 s. -/
theorem C2_poll_timeout (resp : Nat → PollResp)
    (h : ∀ m, 1 ≤ m → m ≤ 60 → ∀ t, resp m ≠ PollResp.token t) :
    pollForToken resp = PollFinal.rejected authTimeoutMsg 61
      ∧ pollCallCount resp = 60
      ∧ tickTimeMs 61 = 122000
      ∧ (∀ n, tickTimeMs (n + 1) = tickTimeMs n + 2000) := by
  have hmain := pollGo_timeout resp 60 61 1 (by omega) (by omega) (by omega)
    (fun m hm hm' t => h m hm hm' t)
  refine ⟨hmain.1, ?_, rfl, fun n => by simp [tickTimeMs]; ring⟩
  have := hmain.2
  simpa [pollCallCount] using this

/-- Claim C2, witness: the amended theorem applied to the backend that
never authorizes the PIN. -/
theorem C2_poll_timeout_witness :
    pollForToken pendingResp = PollFinal.rejected authTimeoutMsg 61
      ∧ pollCallCount pendingResp = 60
      ∧ tickTimeMs 61 = 122000
      ∧ (∀ n, tickTimeMs (n + 1) = tickTimeMs n + 2000) :=
  C2_poll_timeout pendingResp (fun m _ _ t => by simp [pendingResp])

/-!
### Association-list lemmas
-/

theorem kvLookup_erase_self {α : Type} (k : String) (m : List (String × α)) :
    kvLookup k (kvErase k m) = none := by
  induction m with
  | nil => rfl
  | cons p rest ih =>
    by_cases h : p.1 = k
    · simp [kvErase, List.filter, h] at ih ⊢
      exact ih
    · simp [kvErase, List.filter, h] at ih ⊢
      simp [kvLookup, h, ih]

theorem kvLookup_erase_ne {α : Type} (k k' : String) (m : List (String × α))
    (h : k' ≠ k) : kvLookup k' (kvErase k m) = kvLookup k' m := by
  induction m with
  | nil => rfl
  | cons p rest ih =>
    by_cases hp : p.1 = k
    · have hp' : p.1 ≠ k' := by rw [hp]; exact fun hc => h hc.symm
      simp [kvErase, List.filter, hp] at ih ⊢
      simp [kvLookup, hp', ih]
    · simp [kvErase, List.filter, hp] at ih ⊢
      by_cases hq : p.1 = k'
      · simp [kvLookup, hq]
      · simp [kvLookup, hq, ih]

theorem kvLookup_insert_self {α : Type} (k : String) (v : α) (m : List (String × α)) :
    kvLookup k (kvInsert k v m) = some v := by
  simp [kvInsert, kvLookup]

theorem kvLookup_insert_ne {α : Type} (k k' : String) (v : α) (m : List (String × α))
    (h : k' ≠ k) : kvLookup k' (kvInsert k v m) = kvLookup k' m := by
  have h' : k ≠ k' := fun hc => h hc.symm
  simp [kvInsert, kvLookup, h', kvLookup_erase_ne k k' m h]

theorem kvLookup_append {α : Type} (k : String) (l₁ l₂ : List (String × α)) :
    kvLookup k (l₁ ++ l₂) = optOr (kvLookup k l₁) (kvLookup k l₂) := by
  induction l₁ with
  | nil => simp [kvLookup, optOr]
  | cons p rest ih =>
    by_cases h : p.1 = k
    · simp [kvLookup, h, optOr]
    · simp [kvLookup, h, ih]

/-!
### Theorems for C8
-/

/-- Claim C8 (confirmed).  For every cached resource token for
`(resourceType, resourceId)` whose `expiresAt` is strictly in the future
at call time, `getMediaToken` returns the cached token, performs zero
network calls, and leaves the cache unchanged. -/
theorem C8_cache_hit (cache : List (String × TokenEntry)) (rid rtype : String)
    (now : Nat) (net : NetOutcome) (e : TokenEntry)
    (hl : kvLookup (mediaCacheKey rtype rid) cache = some e)
    (hexp : now < e.expiresAt) :
    getMediaToken cache rid rtype now net = ⟨some e.token, cache, 0, false⟩ := by
  simp [getMediaToken, hl, hexp]

/-- Claim C8, witness: a concrete cache holding an unexpired token for
`(video, clip_2)` ten minutes before expiry. -/
theorem C8_cache_hit_witness :
    getMediaToken [("video:clip_2", ⟨"tok2", 600000⟩)] "clip_2" "video" 0 NetOutcome.netErr
      = ⟨some "tok2", [("video:clip_2", ⟨"tok2", 600000⟩)], 0, false⟩ :=
  C8_cache_hit [("video:clip_2", ⟨"tok2", 600000⟩)] "clip_2" "video" 0 NetOutcome.netErr
    ⟨"tok2", 600000⟩ (by decide) (by decide)

/-!
### Theorems for C10
-/

/-- Claim C10 (confirmed).  When no unexpired token is cached and the
media-token request fails with a non-401 status or a network error,
`getMediaToken` returns null (its `try`/`catch` swallows every failure,
so nothing is thrown), the cache is unchanged, and `getSecureMediaUrl`
resolves with the bare base URL: no `token` query parameter, only
`download=true` when requested for download. -/
theorem C10_token_failure_degrades (cache : List (String × TokenEntry))
    (base rid rtype : String) (fd : Bool) (now : Nat) (net : NetOutcome)
    (h1 : noFreshCached cache (mediaCacheKey rtype rid) now = true)
    (h2 : isNon401Failure net = true) :
    getMediaToken cache rid rtype now net = ⟨none, cache, 1, false⟩
      ∧ getSecureMediaUrl cache base rid rtype fd now net
          = ⟨getMediaUrl base none fd, none, cache, 1⟩
      ∧ kvLookup "token" (mediaUrlParams none fd) = none
      ∧ getMediaUrl base none fd
          = (if fd then base ++ (if base.contains '?' then "&" else "?") ++ "download=true"
             else base) := by
  have hfetch : mtFetch cache (mediaCacheKey rtype rid) now net = ⟨none, cache, 1, false⟩ := by
    cases net with
    | ok t => simp [isNon401Failure] at h2
    | httpErr s =>
      simp [isNon401Failure] at h2
      simp [mtFetch, h2]
    | netErr => simp [mtFetch]
  have hmt : getMediaToken cache rid rtype now net = ⟨none, cache, 1, false⟩ := by
    cases hl : kvLookup (mediaCacheKey rtype rid) cache with
    | none => simp [getMediaToken, hl, hfetch]
    | some e =>
      simp [noFreshCached, hl] at h1
      simp [getMediaToken, hl, Nat.not_lt.mpr h1, hfetch]
  refine ⟨hmt, ?_, ?_, ?_⟩
  · simp [getSecureMediaUrl, hmt]
  · cases fd <;> simp [mediaUrlParams, kvLookup]
  · cases fd with
    | false => simp [getMediaUrl, mediaUrlParams]
    | true =>
      simp [getMediaUrl, mediaUrlParams, encodeParams]
      rfl

/-- Claim C10, witness: a 500 response on an empty cache, requested for
download. -/
theorem C10_token_failure_degrades_witness :
    getMediaToken [] "clip_9" "video" 7 (NetOutcome.httpErr 500) = ⟨none, [], 1, false⟩
      ∧ getSecureMediaUrl [] "/clips/9.mp4" "clip_9" "video" true 7 (NetOutcome.httpErr 500)
          = ⟨getMediaUrl "/clips/9.mp4" none true, none, [], 1⟩
      ∧ kvLookup "token" (mediaUrlParams none true) = none
      ∧ getMediaUrl "/clips/9.mp4" none true
          = (if true then
               "/clips/9.mp4" ++ (if "/clips/9.mp4".contains '?' then "&" else "?")
                 ++ "download=true"
             else "/clips/9.mp4") :=
  C10_token_failure_degrades [] "/clips/9.mp4" "clip_9" "video" true 7
    (NetOutcome.httpErr 500) (by decide) (by decide)

/-!
### Theorems for C3
-/

/-- Claim C3 (confirmed).  For every 401-like media failure while using a
cached resource token, `handleMediaError` evicts exactly that one
`(resourceType, resourceId)` cache entry and issues exactly one fresh
token fetch (the eviction guarantees the fetch misses the cache and goes
to the network); when the fetch yields a token the retry callback runs
exactly once with that freshly fetched token; when the second attempt
fails (no fresh token obtainable) the auth-class "Session expired" alert
is surfaced, the callback is never invoked, and the handler returns false
with no further automatic retries. -/
theorem C3_single_eviction_retry (e : MediaErr) (rid rtype : String)
    (cache : List (String × TokenEntry)) (now : Nat) (net : NetOutcome)
    (retryReturns : Bool) (h : is401Like e = true) :
    handleMediaError e rid rtype cache now net retryReturns
      = match net with
        | NetOutcome.ok t =>
          ⟨kvInsert (mediaCacheKey rtype rid) ⟨t, now + fiftyMinutesMs⟩
              (kvErase (mediaCacheKey rtype rid) cache),
            [mediaCacheKey rtype rid], 1, [t], [], retryReturns⟩
        | _ =>
          ⟨kvErase (mediaCacheKey rtype rid) cache, [mediaCacheKey rtype rid], 1, [],
            [sessionExpiredMsg], false⟩ := by
  have hmiss := kvLookup_erase_self (mediaCacheKey rtype rid) cache
  cases net with
  | ok t => simp [handleMediaError, h, getMediaToken, hmiss, mtFetch]
  | httpErr s =>
    by_cases hs : s = 401
    · simp [handleMediaError, h, getMediaToken, hmiss, mtFetch, hs]
    · simp [handleMediaError, h, getMediaToken, hmiss, mtFetch, hs]
  | netErr => simp [handleMediaError, h, getMediaToken, hmiss, mtFetch]

/-- Claim C3, witness: a code-4 error on `(video, clip_1)` with a stale
cached token, where the fresh fetch succeeds. -/
theorem C3_single_eviction_retry_witness :
    handleMediaError ⟨4, false⟩ "clip_1" "video" [("video:clip_1", ⟨"stale", 3⟩)] 9
        (NetOutcome.ok "fresh") true
      = ⟨kvInsert (mediaCacheKey "video" "clip_1") ⟨"fresh", 9 + fiftyMinutesMs⟩
            (kvErase (mediaCacheKey "video" "clip_1") [("video:clip_1", ⟨"stale", 3⟩)]),
          [mediaCacheKey "video" "clip_1"], 1, ["fresh"], [], true⟩ :=
  C3_single_eviction_retry ⟨4, false⟩ "clip_1" "video" [("video:clip_1", ⟨"stale", 3⟩)] 9
    (NetOutcome.ok "fresh") true (by decide)

/-!
### Theorems for C4
-/

/-- Claim C4, counterexample.  The claim covers every media load failure
inside the marker window, but the handler only acts on error code 4: with
the marker for `clip_1` unexpired (2 minutes into its 5-minute window), a
code-2 (network) media failure produces no alert at all — it is not
classified or surfaced as a "not ready yet" outcome. -/
theorem C4_counterexample :
    onPlayerError ⟨2, false⟩ "clip_1" "video" [("clip_1", 300000)] [] 120000
        NetOutcome.netErr false
      = ⟨[("clip_1", 300000)], [], [], 0, [], []⟩ := by
  rfl

/-- Claim C4, amended.  For every resource carrying an unexpired
recently-created marker, a 404-style media error (player error code 4, the
only code the handler inspects) inside the marker window is surfaced as
the "not ready" alert rather than an authorization failure, with no token
eviction, no token fetch and no retry; failures with other error codes
are ignored by the handler (also without eviction or retry).  The marker
itself is set with a 5-minute TTL at creation time. -/
theorem C4_not_ready_in_window (rid rtype : String) (markers : List (String × Nat))
    (cache : List (String × TokenEntry)) (now exp : Nat) (net : NetOutcome)
    (retryReturns b : Bool)
    (hm : kvLookup rid markers = some exp) (hexp : now < exp) :
    onPlayerError ⟨4, b⟩ rid rtype markers cache now net retryReturns
      = ⟨markers, cache, [], 0, [], [(notReadyMsg, notReadyTitle)]⟩
    ∧ (∀ (m : List (String × Nat)) (cid : String) (t : Nat),
        kvLookup cid (markClipAsRecentlyCreated m cid t) = some (t + fiveMinutesMs))
    ∧ fiveMinutesMs = 5 * 60 * 1000 := by
  have h0 : 0 < exp := Nat.lt_of_le_of_lt (Nat.zero_le now) hexp
  have hrc : isClipRecentlyCreated markers rid now = (true, markers) := by
    simp [isClipRecentlyCreated, hm, h0, hexp]
  refine ⟨?_, ?_, rfl⟩
  · simp [onPlayerError, hrc]
  · intro m cid t
    simp [markClipAsRecentlyCreated, kvLookup_insert_self]

/-- Claim C4, witness: `(video, clip_1)` marked at time 0 (window ends at
300000 ms), failing with a code-4 media error 2 minutes later. -/
theorem C4_not_ready_in_window_witness :
    onPlayerError ⟨4, false⟩ "clip_1" "video" [("clip_1", 300000)]
        [("video:clip_1", ⟨"t", 0⟩)] 120000 NetOutcome.netErr false
      = ⟨[("clip_1", 300000)], [("video:clip_1", ⟨"t", 0⟩)], [], 0, [],
          [(notReadyMsg, notReadyTitle)]⟩
    ∧ (∀ (m : List (String × Nat)) (cid : String) (t : Nat),
        kvLookup cid (markClipAsRecentlyCreated m cid t) = some (t + fiveMinutesMs))
    ∧ fiveMinutesMs = 5 * 60 * 1000 :=
  C4_not_ready_in_window "clip_1" "video" [("clip_1", 300000)]
    [("video:clip_1", ⟨"t", 0⟩)] 120000 300000 NetOutcome.netErr false false
    (by decide) (by decide)

/-!
### Theorems for C5
-/

/-- Claim C5, counterexample.  The claim states the anti-forgery header is
attached exactly when the method is POST/PUT/DELETE/PATCH; but when the
`csrf_token` cookie is absent, `getCSRFHeaders` returns no header at all,
so a POST goes out without the anti-forgery header. -/
theorem C5_counterexample :
    kvLookup csrfHeaderName (safeFetchHeaders (some "POST") [] none none).1 = none := by
  rfl

/-- Claim C5, amended.  For every request issued through `safeFetch` whose
caller did not supply an anti-forgery header of its own: the header is
attached exactly when the method is POST, PUT, DELETE or PATCH
(case-insensitive) *and* the `csrf_token` cookie is present, and its value
is exactly the cookie value read at call time; the attached headers do not
depend on the in-memory mirror (never a previously cached copy);
non-mutating requests carry no anti-forgery header. -/
theorem C5_csrf_attach (method : Option String) (callerHeaders : List (String × String))
    (cookie mirror mirror' : Option String)
    (hch : kvLookup csrfHeaderName callerHeaders = none) :
    kvLookup csrfHeaderName (safeFetchHeaders method callerHeaders cookie mirror).1
      = (if isMutating method then cookie else none)
    ∧ (safeFetchHeaders method callerHeaders cookie mirror).1
      = (safeFetchHeaders method callerHeaders cookie mirror').1 := by
  by_cases hm : isMutating method
  · cases cookie with
    | none => simp [safeFetchHeaders, hm, getCSRFHeaders, hch]
    | some v => simp [safeFetchHeaders, hm, getCSRFHeaders, kvLookup]
  · simp [safeFetchHeaders, hm, hch]

/-- Claim C5, witness: a POST with the cookie set to `c1` and a stale
in-memory mirror; the header sent is `c1`, and replacing the mirror by
`none` changes nothing. -/
theorem C5_csrf_attach_witness :
    kvLookup csrfHeaderName
        (safeFetchHeaders (some "POST") [("Content-Type", "application/json")]
          (some "c1") (some "stale")).1
      = (if isMutating (some "POST") then some "c1" else none)
    ∧ (safeFetchHeaders (some "POST") [("Content-Type", "application/json")]
        (some "c1") (some "stale")).1
      = (safeFetchHeaders (some "POST") [("Content-Type", "application/json")]
          (some "c1") none).1 :=
  C5_csrf_attach (some "POST") [("Content-Type", "application/json")]
    (some "c1") (some "stale") none (by rfl)

/-!
### Theorems for C6
-/

/-- Claim C6 (confirmed).  The PIN creation request and the PIN status
polling request carry no anti-forgery header, in either client surface:
all four calls are literal `fetch` invocations (never routed through
`safeFetch` or `this.request`) whose header dictionaries never contain
`X-CSRF-Token`. -/
theorem C6_pin_requests_no_csrf (pinId baseUrl : String) :
    kvLookup csrfHeaderName createPlexPinRequest.headers = none
    ∧ kvLookup csrfHeaderName (checkPinStatusRequest pinId).headers = none
    ∧ kvLookup csrfHeaderName (extCreateAuthPinRequest baseUrl).headers = none
    ∧ kvLookup csrfHeaderName (extCheckAuthPinRequest baseUrl pinId).headers = none :=
  ⟨rfl, rfl, rfl, rfl⟩

/-!
### Theorems for C7
-/

theorem webPollGo_cancel (closeAt : Nat) (statuses : Nat → Option String) :
    ∀ fuel n, n + fuel = 301 → 1 ≤ n → 1000 * (n - 1) < closeAt → closeAt ≤ 298000 →
      (∀ m, 1000 * m < closeAt → statuses m = none) →
      ∃ t, webPollGo closeAt statuses fuel n = WebOutcome.cancelled cancelledMsg t
        ∧ closeAt ≤ t ∧ t ≤ closeAt + 1000 := by
  intro fuel
  induction fuel with
  | zero => intro n hn _ hlt hle _; omega
  | succ fuel ih =>
    intro n hn h1 hlt hle hst
    have hn300 : ¬ 300 ≤ n := by omega
    by_cases hc : closeAt ≤ 1000 * n
    · refine ⟨1000 * n, ?_, hc, by omega⟩
      simp [webPollGo, hn300, hc]
    · have hnone : statuses n = none := hst n (by omega)
      obtain ⟨t, ht, hta, htb⟩ := ih (n + 1) (by omega) (by omega) (by omega) hle hst
      exact ⟨t, by simp [webPollGo, hn300, hc, hnone, ht], hta, htb⟩

/-- Claim C7 (confirmed).  For every popup-flow handshake in which the
user closes the popup (at `closeAt` ms, before the PIN resolves and
cleanly before the 5-minute timer), the loop reports
`Authentication cancelled` at the first 1000 ms tick at or after the
close — within one poll interval of the close — rather than waiting for
the overall timeout. -/
theorem C7_popup_close_cancels (closeAt : Nat) (statuses : Nat → Option String)
    (h1 : 1 ≤ closeAt) (h2 : closeAt ≤ 298000)
    (h3 : ∀ m, 1000 * m < closeAt → statuses m = none) :
    ∃ t, webPoll closeAt statuses = WebOutcome.cancelled cancelledMsg t
      ∧ closeAt ≤ t ∧ t ≤ closeAt + 1000 :=
  webPollGo_cancel closeAt statuses 300 1 (by omega) (by omega) (by omega) h2 h3

/-- Claim C7, witness: popup closed 1500 ms in, PIN never authorized; the
cancellation lands within one poll interval of the close. -/
theorem C7_popup_close_cancels_witness :
    ∃ t, webPoll 1500 noPinStatus = WebOutcome.cancelled cancelledMsg t
      ∧ 1500 ≤ t ∧ t ≤ 1500 + 1000 :=
  C7_popup_close_cancels 1500 noPinStatus (by decide) (by decide) (fun m _ => rfl)

/-!
### Lemmas and theorems for C9
-/

theorem optOr_assoc {α : Type} (a b c : Option α) :
    optOr (optOr a b) c = optOr a (optOr b c) := by
  cases a <;> cases b <;> rfl

theorem optOr_none_right {α : Type} (a : Option α) : optOr a none = a := by
  cases a <;> rfl

theorem kvLookup_eq_none_of_not_mem {α : Type} (k : String) (l : List (String × α))
    (h : k ∉ l.map Prod.fst) : kvLookup k l = none := by
  induction l with
  | nil => rfl
  | cons p rest ih =>
    simp only [List.map_cons, List.mem_cons] at h
    push_neg at h
    have hp : p.1 ≠ k := fun hc => h.1 hc.symm
    simp [kvLookup, hp, ih h.2]

theorem mem_of_kvLookup {α : Type} (k : String) (v : α) (l : List (String × α))
    (h : kvLookup k l = some v) : (k, v) ∈ l := by
  induction l with
  | nil => simp [kvLookup] at h
  | cons p rest ih =>
    by_cases hp : p.1 = k
    · simp [kvLookup, hp] at h
      subst hp
      subst h
      exact List.mem_cons_self _ _
    · simp [kvLookup, hp] at h
      exact List.mem_cons_of_mem _ (ih h)

theorem kvLookup_foldl_insert {α : Type} (data : List (String × α)) :
    ∀ (m : List (String × α)) (k : String),
      kvLookup k (data.foldl (fun c p => kvInsert p.1 p.2 c) m)
        = optOr (kvLookup k data.reverse) (kvLookup k m) := by
  induction data with
  | nil => intro m k; simp [kvLookup, optOr]
  | cons p rest ih =>
    intro m k
    have hstep := ih (kvInsert p.1 p.2 m) k
    simp only [List.foldl_cons] at hstep ⊢
    rw [hstep, List.reverse_cons, kvLookup_append]
    by_cases hp : p.1 = k
    · subst hp
      rw [optOr_assoc]
      congr 1
      simp [kvLookup, kvLookup_insert_self, optOr]
    · rw [optOr_assoc]
      congr 1
      rw [kvLookup_insert_ne p.1 k p.2 m (fun hc => hp hc.symm)]
      simp [kvLookup, hp, optOr]

theorem kvLookup_reverse_of_nodup {α : Type} (l : List (String × α)) (k : String)
    (h : (l.map Prod.fst).Nodup) : kvLookup k l.reverse = kvLookup k l := by
  induction l with
  | nil => rfl
  | cons p rest ih =>
    simp only [List.map_cons, List.nodup_cons] at h
    rw [List.reverse_cons, kvLookup_append, ih h.2]
    by_cases hp : p.1 = k
    · subst hp
      have hnone : kvLookup p.1 rest = none :=
        kvLookup_eq_none_of_not_mem p.1 rest h.1
      simp [kvLookup, hnone, optOr]
    · simp [kvLookup, hp, optOr_none_right]

theorem kvLookup_foldl_erase {α : Type} (keys : List String) :
    ∀ (m : List (String × α)) (k : String),
      kvLookup k (keys.foldl (fun c k' => kvErase k' c) m)
        = if k ∈ keys then none else kvLookup k m := by
  induction keys with
  | nil => intro m k; simp
  | cons k0 rest ih =>
    intro m k
    have hstep := ih (kvErase k0 m) k
    simp only [List.foldl_cons] at hstep ⊢
    rw [hstep]
    by_cases hk : k = k0
    · subst hk
      simp [kvLookup_erase_self]
    · simp [hk, kvLookup_erase_ne k0 k m hk]

theorem kvLookup_get_result (s : StoreState) (keys : List String) (q : String) :
    kvLookup q (SecureStorage.get s keys).1
      = if q ∈ keys then resultFor s q else none := by
  show kvLookup q (keys.filterMap (fun k => (resultFor s k).map (fun v => (k, v))))
      = if q ∈ keys then resultFor s q else none
  induction keys with
  | nil => simp [kvLookup]
  | cons k0 rest ih =>
    cases hr : resultFor s k0 with
    | some v =>
      simp only [List.filterMap_cons, hr, Option.map_some']
      by_cases hq : k0 = q
      · subst hq
        simp [kvLookup, hr]
      · have hq' : ¬ q = k0 := fun hc => hq hc.symm
        simp [kvLookup, hq, hq', ih]
    | none =>
      simp only [List.filterMap_cons, hr, Option.map_none']
      by_cases hq : q = k0
      · subst hq
        rw [ih]
        by_cases hm : q ∈ rest <;> simp [hm, hr]
      · simp [hq, ih]

theorem coherent_applyOp (s : StoreState) (op : SOp) (h : coherent s) :
    coherent (applyOp s op) := by
  cases op with
  | set data =>
    intro k v hk
    show kvLookup k (data.foldl (fun b p => kvInsert p.1 p.2 b) s.backing) = some v
    have hk' : optOr (kvLookup k data.reverse) (kvLookup k s.cache) = some v := by
      rw [← kvLookup_foldl_insert]
      exact hk
    rw [kvLookup_foldl_insert]
    cases hd : kvLookup k data.reverse with
    | some w =>
      rw [hd] at hk'
      simp [optOr] at hk' ⊢
      exact hk'
    | none =>
      rw [hd] at hk'
      simp [optOr] at hk' ⊢
      exact h k v hk'
  | remove keys =>
    intro k v hk
    have hk2 : kvLookup k (keys.foldl (fun c k' => kvErase k' c) s.cache) = some v := hk
    show kvLookup k (keys.foldl (fun b k' => kvErase k' b) s.backing) = some v
    rw [kvLookup_foldl_erase] at hk2 ⊢
    by_cases hm : k ∈ keys
    · simp [hm] at hk2
    · simp [hm] at hk2 ⊢
      exact h k v hk2
  | clearAll =>
    intro k v hk
    simp [SecureStorage.clear, applyOp, kvLookup] at hk
  | getKeys keys =>
    intro k v hk
    have hk' : optOr
        (kvLookup k (((keys.filter (fun k => (kvLookup k s.cache).isNone)).filterMap
          (fun k => (kvLookup k s.backing).map (fun v => (k, v)))).reverse))
        (kvLookup k s.cache) = some v := by
      rw [← kvLookup_foldl_insert]
      exact hk
    show kvLookup k s.backing = some v
    cases hd : kvLookup k (((keys.filter (fun k => (kvLookup k s.cache).isNone)).filterMap
        (fun k => (kvLookup k s.backing).map (fun v => (k, v)))).reverse) with
    | some w =>
      rw [hd] at hk'
      simp [optOr] at hk'
      subst hk'
      have hmem := mem_of_kvLookup k w _ hd
      rw [List.mem_reverse] at hmem
      rw [List.mem_filterMap] at hmem
      obtain ⟨k0, _, hmap⟩ := hmem
      rw [Option.map_eq_some'] at hmap
      obtain ⟨u, hu, huv⟩ := hmap
      have hk0 : k0 = k := congrArg Prod.fst huv
      have huw : u = w := congrArg Prod.snd huv
      rw [hk0] at hu
      rw [huw] at hu
      exact hu
    | none =>
      rw [hd] at hk'
      simp [optOr] at hk'
      exact h k v hk'

theorem coherent_runOps (ops : List SOp) :
    ∀ s : StoreState, coherent s → coherent (runOps ops s) := by
  induction ops with
  | nil => intro s h; exact h
  | cons op rest ih =>
    intro s h
    exact ih (applyOp s op) (coherent_applyOp s op h)

theorem resultFor_eq_backing (s : StoreState) (h : coherent s) (q : String) :
    resultFor s q = kvLookup q s.backing := by
  unfold resultFor
  cases hc : kvLookup q s.cache with
  | some w => simp [optOr, h q w hc]
  | none => simp [optOr]

theorem get_after_set (s : StoreState) (data : KV) (k v : String)
    (hnd : (data.map Prod.fst).Nodup) (hk : kvLookup k data = some v) :
    SecureStorage.get (SecureStorage.set s data) [k]
      = ([(k, v)], SecureStorage.set s data, []) := by
  have hrev : kvLookup k data.reverse = some v := by
    rw [kvLookup_reverse_of_nodup data k hnd]
    exact hk
  have hc : kvLookup k (SecureStorage.set s data).cache = some v := by
    show kvLookup k (data.foldl (fun c p => kvInsert p.1 p.2 c) s.cache) = some v
    rw [kvLookup_foldl_insert, hrev]
    rfl
  have hres : resultFor (SecureStorage.set s data) k = some v := by
    unfold resultFor
    rw [hc]
    rfl
  simp [SecureStorage.get, hc, hres]

/-- Claim C9 (confirmed).  `SecureStorage` is a coherent write-through
cache: after any sequence of operations run from a fresh instance (empty
in-memory cache over arbitrary pre-existing backing storage), every cached
binding agrees with backing storage; after `set(data)` resolves, `get(k)`
for a key of `data` returns the just-written value, served entirely from
the in-memory map (the list of backing-storage reads is empty);
`remove(keys)` deletes its keys from both maps and `clear()` empties both;
and a read through the cache always equals the backing-storage value,
i.e. the last value written through the store. -/
theorem C9_write_through_cache (ops : List SOp) (b0 : KV) (data : KV) (k v : String)
    (rkeys gkeys : List String) (rk : String)
    (hnd : (data.map Prod.fst).Nodup) (hk : kvLookup k data = some v)
    (hrk : rk ∈ rkeys) :
    coherent (runOps ops ⟨[], b0⟩)
    ∧ SecureStorage.get (SecureStorage.set (runOps ops ⟨[], b0⟩) data) [k]
        = ([(k, v)], SecureStorage.set (runOps ops ⟨[], b0⟩) data, [])
    ∧ kvLookup rk (SecureStorage.remove (runOps ops ⟨[], b0⟩) rkeys).cache = none
    ∧ kvLookup rk (SecureStorage.remove (runOps ops ⟨[], b0⟩) rkeys).backing = none
    ∧ SecureStorage.clear (runOps ops ⟨[], b0⟩) = ⟨[], []⟩
    ∧ (∀ q, q ∈ gkeys →
        kvLookup q (SecureStorage.get (runOps ops ⟨[], b0⟩) gkeys).1
          = kvLookup q (runOps ops ⟨[], b0⟩).backing) := by
  have hinit : coherent (⟨[], b0⟩ : StoreState) := by
    intro k' v' hk'
    simp [kvLookup] at hk'
  have hcoh := coherent_runOps ops ⟨[], b0⟩ hinit
  refine ⟨hcoh, get_after_set _ data k v hnd hk, ?_, ?_, rfl, ?_⟩
  · show kvLookup rk
      (rkeys.foldl (fun c k' => kvErase k' c) (runOps ops ⟨[], b0⟩).cache) = none
    rw [kvLookup_foldl_erase]
    simp [hrk]
  · show kvLookup rk
      (rkeys.foldl (fun b k' => kvErase k' b) (runOps ops ⟨[], b0⟩).backing) = none
    rw [kvLookup_foldl_erase]
    simp [hrk]
  · intro q hq
    rw [kvLookup_get_result]
    simp only [hq, if_true]
    exact resultFor_eq_backing _ hcoh q

/-- Claim C9, witness: one prior `set`, backing storage pre-populated,
then the three laws at concrete keys. -/
theorem C9_write_through_cache_witness :
    coherent (runOps [SOp.set [("x", "1")]] ⟨[], [("y", "0")]⟩)
    ∧ SecureStorage.get
        (SecureStorage.set (runOps [SOp.set [("x", "1")]] ⟨[], [("y", "0")]⟩) [("a", "7")])
        ["a"]
        = ([("a", "7")],
           SecureStorage.set (runOps [SOp.set [("x", "1")]] ⟨[], [("y", "0")]⟩) [("a", "7")],
           [])
    ∧ kvLookup "z"
        (SecureStorage.remove (runOps [SOp.set [("x", "1")]] ⟨[], [("y", "0")]⟩)
          ["a", "z"]).cache = none
    ∧ kvLookup "z"
        (SecureStorage.remove (runOps [SOp.set [("x", "1")]] ⟨[], [("y", "0")]⟩)
          ["a", "z"]).backing = none
    ∧ SecureStorage.clear (runOps [SOp.set [("x", "1")]] ⟨[], [("y", "0")]⟩) = ⟨[], []⟩
    ∧ (∀ q, q ∈ ["x", "w"] →
        kvLookup q
            (SecureStorage.get (runOps [SOp.set [("x", "1")]] ⟨[], [("y", "0")]⟩)
              ["x", "w"]).1
          = kvLookup q (runOps [SOp.set [("x", "1")]] ⟨[], [("y", "0")]⟩).backing) :=
  C9_write_through_cache [SOp.set [("x", "1")]] [("y", "0")] [("a", "7")] "a" "7"
    ["a", "z"] ["x", "w"] "z" (by decide) (by decide) (by decide)

end ClipForge
